import Mathlib

/-!
Verification of `WeatherServiceAnalysis/store-weather-data.py` (ETL pipeline:
NetCDF grid files → derived weather quantities → flat records → MongoDB
upsert operations).

Shallow embedding conventions:
* IEEE-754 double values flowing through the pipeline are modelled by `FVal`:
  a finite real number, `+inf`, `-inf`, or `NaN`.  The grid data uses `NaN`
  for missing (non-land) points; `np.isnan` is `FVal.isnan`.
* `numpy` real functions (`np.sqrt`, `np.arctan2`, `np.degrees`, `%`) are
  modelled over `ℝ` (`Real.sqrt`, `atan2`, `degrees`, `fmod`), with the IEEE
  special-value cases of the element-wise operations spelled out on `FVal`.
* Timestamps are opaque integers (`pd.to_datetime(...).to_pydatetime()` is a
  format conversion, modelled as the identity).
* Exceptions are modelled by `Option`/`Except` return types: `none`/`.error`
  marks the path on which the Python code raises (or skips via `continue`).
-/

/-- One IEEE-754 double as seen by the pipeline: a finite real, an infinity,
or NaN.  ERA5-Land grid data uses NaN for points without data. -/
inductive FVal where
  | num (x : ℝ)
  | posInf
  | negInf
  | nan

/-- Model of `np.isnan`: true exactly on NaN (infinities are NOT NaN). -/
def FVal.isnan : FVal → Bool
  | .nan => true
  | _ => false

@[simp] lemma FVal.isnan_num (x : ℝ) : (FVal.num x).isnan = false := rfl

@[simp] lemma FVal.isnan_posInf : FVal.posInf.isnan = false := rfl

@[simp] lemma FVal.isnan_negInf : FVal.negInf.isnan = false := rfl

@[simp] lemma FVal.isnan_nan : FVal.nan.isnan = true := rfl

/-- Model of `np.degrees`: radians to degrees, `x * 180 / pi`. -/
noncomputable def degrees (x : ℝ) : ℝ := x * (180 / Real.pi)

/-- Model of the float modulo `x % y` of Python/numpy for the divisor used in
the source (`360`): floored modulo, `x - y * floor (x / y)`. -/
noncomputable def fmod (x y : ℝ) : ℝ := x - y * ⌊x / y⌋

/-- Model of `np.arctan2 y x` on finite arguments: the angle of the point
`(x, y)` in `(-pi, pi]`, with `atan2 0 0 = 0` as in IEEE-754 / numpy. -/
noncomputable def atan2 (y x : ℝ) : ℝ :=
  if 0 < x then Real.arctan (y / x)
  else if x < 0 then
    (if 0 ≤ y then Real.arctan (y / x) + Real.pi else Real.arctan (y / x) - Real.pi)
  else
    (if 0 < y then Real.pi / 2 else if y < 0 then -(Real.pi / 2) else 0)

/-- Model of Python `round` on a real argument: round half to even,
returning an integer (Python 3 banker rounding). -/
noncomputable def pyRound (x : ℝ) : ℤ :=
  if Int.fract x = 1 / 2 then (if Even ⌊x⌋ then ⌊x⌋ else ⌊x⌋ + 1)
  else round x

/-- The real-number wind-direction formula of line 246 of the source:
`(np.degrees(np.arctan2(u, v)) + 180) % 360`. -/
noncomputable def windDirOfReal (u v : ℝ) : ℝ :=
  fmod (degrees (atan2 u v) + 180) 360

/-- Element-wise `temp_k - 273.15` (line 238 of the source). -/
noncomputable def tempCelsius : FVal → FVal
  | .num x => .num (x - 273.15)
  | .posInf => .posInf
  | .negInf => .negInf
  | .nan => .nan

/-- Element-wise `np.sqrt(u10**2 + v10**2)` (line 241 of the source);
NaN propagates, any infinity with no NaN gives `+inf`. -/
noncomputable def windSpeedF : FVal → FVal → FVal
  | .nan, _ => .nan
  | _, .nan => .nan
  | .num u, .num v => .num (Real.sqrt (u ^ 2 + v ^ 2))
  | _, _ => .posInf

/-- Element-wise `(np.degrees(np.arctan2(u10, v10)) + 180) % 360`
(line 246 of the source); NaN propagates, the infinite-argument cases take
the IEEE-754 `arctan2` special values. -/
noncomputable def windDirF : FVal → FVal → FVal
  | .nan, _ => .nan
  | _, .nan => .nan
  | .num u, .num v => .num (windDirOfReal u v)
  | .posInf, .posInf => .num (fmod (degrees (Real.pi / 4) + 180) 360)
  | .posInf, .negInf => .num (fmod (degrees (3 * Real.pi / 4) + 180) 360)
  | .negInf, .posInf => .num (fmod (degrees (-(Real.pi / 4)) + 180) 360)
  | .negInf, .negInf => .num (fmod (degrees (-(3 * Real.pi / 4)) + 180) 360)
  | .posInf, .num _ => .num (fmod (degrees (Real.pi / 2) + 180) 360)
  | .negInf, .num _ => .num (fmod (degrees (-(Real.pi / 2)) + 180) 360)
  | .num _, .posInf => .num (fmod (degrees 0 + 180) 360)
  | .num u, .negInf =>
      .num (fmod (degrees (if u < 0 then -Real.pi else Real.pi) + 180) 360)

/-- One grid cell of a loaded chunk before the transform: the coordinates
`(valid_time, latitude, longitude)` and the raw variables `t2m, u10, v10`. -/
structure RawCell where
  time : ℤ
  latitude : FVal
  longitude : FVal
  t2m : FVal
  u10 : FVal
  v10 : FVal

/-- One grid cell after the transform (lines 237–251): the coordinates and
the derived variables `temperature_c, wind_speed_mps, wind_direction_deg`. -/
structure TransCell where
  time : ℤ
  latitude : FVal
  longitude : FVal
  temperature_c : FVal
  wind_speed_mps : FVal
  wind_direction_deg : FVal

/-- The Quantity Transformer on one cell (lines 237–251 of the source). -/
noncomputable def transformCell (c : RawCell) : TransCell :=
  { time := c.time
    latitude := c.latitude
    longitude := c.longitude
    temperature_c := tempCelsius c.t2m
    wind_speed_mps := windSpeedF c.u10 c.v10
    wind_direction_deg := windDirF c.u10 c.v10 }

/-- The Quantity Transformer applied element-wise across a full slice,
the slice flattened to its list of `(time, lat, lon)` cells in the
iteration order of `to_dataframe`. -/
noncomputable def transformSlice (s : List RawCell) : List TransCell :=
  s.map transformCell

/-- The row-keeping predicate of
`df.dropna(subset=[temperature_c, wind_speed_mps, wind_direction_deg],
how=all)` (line 262): a row is kept unless all three are NaN. -/
def keepRow (r : TransCell) : Bool :=
  !(r.temperature_c.isnan && r.wind_speed_mps.isnan && r.wind_direction_deg.isnan)

/-- The Tabular Flattener (line 257–262): one record per coordinate
combination, dropping the rows where all three derived variables are NaN. -/
def flattenSlice (s : List TransCell) : List TransCell :=
  s.filter keepRow

/-- The filter document of one `UpdateOne` (lines 346–350). -/
structure OpFilter where
  timestamp : ℤ
  latitude : FVal
  longitude : FVal

/-- The `$set` document of one `UpdateOne` (lines 355–366); `none` in a
nullable field is the explicit `None`/null value, not an omitted key. -/
structure UpdateSet where
  timestamp : ℤ
  latitude : FVal
  longitude : FVal
  temperature : Option FVal
  temperatureUnit : String
  windSpeed : Option FVal
  windSpeedUnit : String
  windDirection : Option ℤ
  windDirectionUnit : String

/-- One `UpdateOne(op_filter, {$set: op_update_set}, upsert=True)`. -/
structure UpsertOp where
  opFilter : OpFilter
  updateSet : UpdateSet
  upsert : Bool

/-- Model of `isinstance(val, (int, float, np.number)) and not np.isnan(val)`
(line 336): every `FVal` is numeric, so the check is exactly `not isnan`;
note infinities PASS this check. -/
def coordOk (v : FVal) : Bool := !v.isnan

/-- The safeguard of lines 340–343: all three weather values NaN. -/
def allWeatherNan (r : TransCell) : Bool :=
  r.temperature_c.isnan && r.wind_speed_mps.isnan && r.wind_direction_deg.isnan

/-- Model of `None if np.isnan(val) else float(val)` (lines 359 and 361). -/
def nullIfNanF (v : FVal) : Option FVal :=
  if v.isnan then none else some v

/-- Model of `None if np.isnan(val) else int(round(val))` (line 363):
`some none` is the null branch, `some (some k)` the rounded integer, and
`none` the `OverflowError` that `int(round(...))` raises on an infinity,
which the per-record `except` handler turns into a skipped record. -/
noncomputable def intRoundF : FVal → Option (Option ℤ)
  | .nan => some none
  | .num x => some (some (pyRound x))
  | .posInf => none
  | .negInf => none

/-- The Upsert Batch Builder for one record (the loop body of
`prepare_bulk_operations`, lines 325–381): `none` is a skipped record
(`continue`), `some op` an appended `UpdateOne`. -/
noncomputable def buildOp (r : TransCell) : Option UpsertOp :=
  if !(coordOk r.latitude && coordOk r.longitude) then none
  else if allWeatherNan r then none
  else
    match intRoundF r.wind_direction_deg with
    | none => none
    | some wdi =>
        some
          { opFilter := { timestamp := r.time, latitude := r.latitude, longitude := r.longitude }
            updateSet :=
              { timestamp := r.time
                latitude := r.latitude
                longitude := r.longitude
                temperature := nullIfNanF r.temperature_c
                temperatureUnit := "C"
                windSpeed := nullIfNanF r.wind_speed_mps
                windSpeedUnit := "m/s"
                windDirection := wdi
                windDirectionUnit := "degrees" }
            upsert := true }

/-- `prepare_bulk_operations` over a whole record list: skipped records
contribute nothing, the rest are appended in order. -/
noncomputable def prepare_bulk_operations (rs : List TransCell) : List UpsertOp :=
  rs.filterMap buildOp

/-- One entry of `BulkWriteError.details[writeErrors]`. -/
structure WriteErrDetail where
  index : ℕ
  code : ℤ
  errmsg : String

/-- The counts of a successful `bulk_write` result (lines 398–403). -/
structure BulkWriteResult where
  upserted_count : ℕ
  matched_count : ℕ
  modified_count : ℕ

/-- What the `collection.bulk_write` call at line 395 can do: return a
result, raise `BulkWriteError` with per-operation error details, or raise
any other exception (connection loss, total failure of the write call). -/
inductive BulkOutcome where
  | success (result : BulkWriteResult)
  | bulkWriteError (writeErrors : List WriteErrDetail)
  | otherException (msg : String)

/-- The log lines `load_data_to_mongo` can emit, in order. -/
inductive LogLine where
  | warnNoOps
  | infoSummary (upserted matched modified : ℕ)
  | errorBulkCount (n : ℕ)
  | debugOpError (index : ℕ) (code : ℤ) (errmsg : String)
  | errorUnexpected (msg : String)
deriving DecidableEq

/-- The literal `ordered=False` argument of the `bulk_write` call. -/
def BULK_WRITE_ORDERED : Bool := false

/-- Models the pymongo driver contract for the `ordered` flag of
`bulk_write`, given which operations of the batch individually fail:
with `ordered=True` execution stops after the first failing operation,
with `ordered=False` every operation of the batch is attempted. -/
def attemptedOpsCount (ordered : Bool) (opFails : List Bool) : ℕ :=
  if ordered then
    match opFails.findIdx? (fun f => f) with
    | some i => i + 1
    | none => opFails.length
  else opFails.length

/-- The Store Writer `load_data_to_mongo` (lines 385–412).  The returned
`Except` is the view of the caller: `.error` would be an exception
propagating out of the function, `.ok logs` a normal return after emitting
`logs`.  Every branch of the source, including the bare `except Exception`
at line 411, returns normally. -/
def load_data_to_mongo (operations : List UpsertOp) (outcome : BulkOutcome) :
    Except String (List LogLine) :=
  if operations.isEmpty then .ok [.warnNoOps]
  else
    match outcome with
    | .success r => .ok [.infoSummary r.upserted_count r.matched_count r.modified_count]
    | .bulkWriteError errs =>
        .ok (.errorBulkCount errs.length ::
          (errs.take 5).map (fun e => .debugOpError e.index e.code e.errmsg))
    | .otherException m => .ok [.errorUnexpected m]

/-- The HDF5 signature checked at line 84:
`0x89 0x48 0x44 0x46 0x0D 0x0A 0x1A 0x0A`. -/
def HDF5_SIG : List ℕ := [0x89, 0x48, 0x44, 0x46, 0x0D, 0x0A, 0x1A, 0x0A]

/-- The ASCII bytes of `CDF`, the marker tested by
`head.startswith(b'CDF')` at line 81 — a 3-byte test. -/
def CDF_MAGIC : List ℕ := [0x43, 0x44, 0x46]

/-- `_is_probably_netcdf` (lines 75–89) on the byte content of a readable
file: `head = f.read(8)`; accept when `head` starts with `CDF` or equals
the 8-byte HDF5 signature. -/
def is_probably_netcdf (file : List ℕ) : Bool :=
  let head := file.take 8
  head.take 3 == CDF_MAGIC || head == HDF5_SIG

/-- What the claim text (and spec section 6) says the check recognizes:
exactly two signatures, a 4-byte classic marker (`CDF\x01` or `CDF\x02`,
per the source comment at line 80) or the 8-byte HDF5 signature.  Stated
from the words of the spec, for comparison with `is_probably_netcdf`. -/
def claimedSignatureMatch (file : List ℕ) : Bool :=
  let head := file.take 8
  head.take 4 == [0x43, 0x44, 0x46, 0x01] ||
    head.take 4 == [0x43, 0x44, 0x46, 0x02] || head == HDF5_SIG

/-- The outcome of the pre-open validation of `process_netcdf_file`. -/
inductive FileDecision where
  | skippedMissing
  | skippedTooSmall
  | skippedBadHeader
  | skippedUnreadable
  | processed
deriving DecidableEq

/-- The validation ladder of `process_netcdf_file` (lines 157–204):
existence, the `< 1024 * 10` size check on `stat`, the magic-byte check on
the leading bytes, then the engine-fallback open (summarized by whether
any backend succeeded); each failing check returns (skips the file)
before any later step runs. -/
def fileValidation (fileExists : Bool) (size_bytes : ℕ) (file : List ℕ)
    (anyEngineOpens : Bool) : FileDecision :=
  if !fileExists then .skippedMissing
  else if size_bytes < 1024 * 10 then .skippedTooSmall
  else if !(is_probably_netcdf file) then .skippedBadHeader
  else if !anyEngineOpens then .skippedUnreadable
  else .processed

/-- `TIME_CHUNK_SIZE = 24 * 7` (line 64). -/
def TIME_CHUNK_SIZE : ℕ := 24 * 7

/-- The slice loop of `process_netcdf_file` (lines 216–224):
`for i in range(0, total_steps, TIME_CHUNK_SIZE)` with
`start_step = i` and `end_step = min(i + TIME_CHUNK_SIZE, total_steps)`;
each pair is the half-open step range `[start_step, end_step)` of one
slice.  `range(0, t, k)` is the `⌈t / k⌉` values `0, k, 2k, …`, the chunk
count the source itself computes at line 211. -/
def sliceBounds (total_steps : ℕ) : List (ℕ × ℕ) :=
  (List.range' 0 ((total_steps + TIME_CHUNK_SIZE - 1) / TIME_CHUNK_SIZE)
      TIME_CHUNK_SIZE).map
    (fun i => (i, min (i + TIME_CHUNK_SIZE) total_steps))

/-! ### Helper lemmas about the numeric model -/

lemma fmod_eq_mul_fract (x y : ℝ) (hy : y ≠ 0) :
    fmod x y = y * Int.fract (x / y) := by
  rw [fmod, Int.fract]
  field_simp

lemma fmod_nonneg (x y : ℝ) (hy : 0 < y) : 0 ≤ fmod x y := by
  rw [fmod_eq_mul_fract x y hy.ne']
  exact mul_nonneg hy.le (Int.fract_nonneg _)

lemma fmod_lt (x y : ℝ) (hy : 0 < y) : fmod x y < y := by
  rw [fmod_eq_mul_fract x y hy.ne']
  calc y * Int.fract (x / y) < y * 1 :=
        (mul_lt_mul_left hy).mpr (Int.fract_lt_one _)
    _ = y := mul_one y

lemma fmod_eq_self {x y : ℝ} (h0 : 0 ≤ x) (h1 : x < y) : fmod x y = x := by
  have hy : 0 < y := lt_of_le_of_lt h0 h1
  have hfl : ⌊x / y⌋ = 0 := by
    rw [Int.floor_eq_zero_iff]
    exact ⟨div_nonneg h0 hy.le, (div_lt_one hy).mpr h1⟩
  rw [fmod, hfl]
  simp

lemma arctan_pos_of_pos {x : ℝ} (hx : 0 < x) : 0 < Real.arctan x := by
  have h := Real.arctan_strictMono hx
  rwa [Real.arctan_zero] at h

lemma arctan_lt_self {x : ℝ} (hx : 0 < x) : Real.arctan x < x := by
  have h2 := Real.lt_tan (arctan_pos_of_pos hx) (Real.arctan_lt_pi_div_two x)
  rwa [Real.tan_arctan x] at h2

lemma arctan_deg_pos {x : ℝ} (hx : 0 < x) : 0 < Real.arctan x * (180 / Real.pi) :=
  mul_pos (arctan_pos_of_pos hx) (by positivity)

lemma arctan_deg_lt {x : ℝ} (hx : 0 < x) :
    Real.arctan x * (180 / Real.pi) < 58 * x := by
  have h58 : (180 : ℝ) / Real.pi < 58 := by
    rw [div_lt_iff₀ Real.pi_pos]
    nlinarith [Real.pi_gt_d2]
  have hlt := arctan_lt_self hx
  have hpos := arctan_pos_of_pos hx
  nlinarith [mul_lt_mul'' hlt h58 hpos.le (by positivity : (0 : ℝ) ≤ 180 / Real.pi)]

lemma windDir_bounds (u v : ℝ) : 0 ≤ windDirOfReal u v ∧ windDirOfReal u v < 360 :=
  ⟨fmod_nonneg _ _ (by norm_num), fmod_lt _ _ (by norm_num)⟩

lemma pyRound_bounds {x : ℝ} (h0 : 0 ≤ x) (h1 : x < 360) :
    0 ≤ pyRound x ∧ pyRound x ≤ 360 := by
  have hf0 : (0 : ℤ) ≤ ⌊x⌋ := Int.floor_nonneg.mpr h0
  have hf1 : ⌊x⌋ < 360 := by
    rw [Int.floor_lt]
    push_cast
    linarith
  rw [pyRound]
  split
  · split <;> omega
  · rw [round_eq]
    have g0 : (0 : ℤ) ≤ ⌊x + 1 / 2⌋ := Int.floor_nonneg.mpr (by linarith)
    have g1 : ⌊x + 1 / 2⌋ < 361 := by
      rw [Int.floor_lt]
      push_cast
      linarith
    omega

/-! ### The claims -/

/-- C6: for finite `(u, v) ≠ (0, 0)`, the derived wind direction
`(degrees(atan2(u, v)) + 180) mod 360` lies in `[0, 360)`. -/
theorem C6_wind_direction_range (u v : ℝ) (_h : (u, v) ≠ ((0 : ℝ), (0 : ℝ))) :
    0 ≤ windDirOfReal u v ∧ windDirOfReal u v < 360 :=
  windDir_bounds u v

/-- C6 witness: the theorem evaluated at the concrete pair `(0, 1)`. -/
theorem C6_wind_direction_range_witness :
    ((0 : ℝ), (1 : ℝ)) ≠ ((0 : ℝ), (0 : ℝ)) ∧
    (0 ≤ windDirOfReal 0 1 ∧ windDirOfReal 0 1 < 360) :=
  ⟨by simp, C6_wind_direction_range 0 1 (by simp)⟩

/-- C7: at the boundary input `u = v = 0` the transformer yields
`wind_speed = 0` and a defined `wind_direction = 180` degrees. -/
theorem C7_zero_wind_boundary :
    windSpeedF (FVal.num 0) (FVal.num 0) = FVal.num 0 ∧
    windDirF (FVal.num 0) (FVal.num 0) = FVal.num 180 := by
  constructor
  · show FVal.num (Real.sqrt ((0 : ℝ) ^ 2 + 0 ^ 2)) = FVal.num 0
    norm_num
  · show FVal.num (windDirOfReal 0 0) = FVal.num 180
    have h2 : atan2 0 0 = 0 := by simp [atan2]
    have h3 : windDirOfReal 0 0 = 180 := by
      rw [windDirOfReal, h2]
      have hd : degrees 0 = 0 := by simp [degrees]
      rw [hd, zero_add]
      exact fmod_eq_self (by norm_num) (by norm_num)
    rw [h3]

/-- C1: for every element of a slice whose raw values are the finite numbers
`temperature_k, u, v`, the Quantity Transformer derives exactly
`temperature_c = temperature_k - 273.15`, `wind_speed = sqrt(u^2 + v^2)` and
`wind_direction = (degrees(atan2(u, v)) + 180) mod 360`, element-wise
across the full slice (coordinates are carried through unchanged). -/
theorem C1_quantity_transformer (s : List RawCell) (i : ℕ) (c : RawCell)
    (tk u v : ℝ) (hc : s[i]? = some c) (ht : c.t2m = FVal.num tk)
    (hu : c.u10 = FVal.num u) (hv : c.v10 = FVal.num v) :
    (transformSlice s).length = s.length ∧
    (transformSlice s)[i]? = some
      { time := c.time
        latitude := c.latitude
        longitude := c.longitude
        temperature_c := FVal.num (tk - 273.15)
        wind_speed_mps := FVal.num (Real.sqrt (u ^ 2 + v ^ 2))
        wind_direction_deg := FVal.num (fmod (degrees (atan2 u v) + 180) 360) } := by
  constructor
  · simp [transformSlice]
  · rw [transformSlice, List.getElem?_map, hc]
    simp [transformCell, ht, hu, hv, tempCelsius, windSpeedF, windDirF, windDirOfReal]

/-- A concrete one-cell slice used for the C1 witness. -/
def c1cell : RawCell :=
  ⟨0, FVal.num 19, FVal.num (-99), FVal.num 300, FVal.num 3, FVal.num 4⟩

/-- C1 witness: the theorem evaluated on a concrete one-cell slice. -/
theorem C1_quantity_transformer_witness :
    (transformSlice [c1cell]).length = [c1cell].length ∧
    (transformSlice [c1cell])[0]? = some
      { time := 0
        latitude := FVal.num 19
        longitude := FVal.num (-99)
        temperature_c := FVal.num (300 - 273.15)
        wind_speed_mps := FVal.num (Real.sqrt (3 ^ 2 + 4 ^ 2))
        wind_direction_deg := FVal.num (fmod (degrees (atan2 3 4) + 180) 360) } :=
  C1_quantity_transformer [c1cell] 0 c1cell 300 3 4 rfl rfl rfl rfl

/-- C2: the Tabular Flattener drops a record iff temperature, wind speed and
wind direction are all NaN; a record with only temperature defined is kept,
and the Upsert Batch Builder later stores its two wind fields as null. -/
theorem C2_flattener_drop_iff (s : List TransCell) (r : TransCell) :
    (r ∈ flattenSlice s ↔
      r ∈ s ∧ ¬(r.temperature_c.isnan = true ∧ r.wind_speed_mps.isnan = true ∧
        r.wind_direction_deg.isnan = true)) ∧
    (∀ t : ℝ, r.temperature_c = FVal.num t → r.wind_speed_mps = FVal.nan →
      r.wind_direction_deg = FVal.nan → r.latitude.isnan = false →
      r.longitude.isnan = false →
      keepRow r = true ∧
      (buildOp r).map
          (fun op => (op.updateSet.temperature, op.updateSet.windSpeed,
            op.updateSet.windDirection)) =
        some (some (FVal.num t), none, none)) := by
  constructor
  · have hk : keepRow r = true ↔
        ¬(r.temperature_c.isnan = true ∧ r.wind_speed_mps.isnan = true ∧
          r.wind_direction_deg.isnan = true) := by
      rw [keepRow]
      cases r.temperature_c.isnan <;> cases r.wind_speed_mps.isnan <;>
        cases r.wind_direction_deg.isnan <;> simp
    rw [flattenSlice, List.mem_filter, hk]
  · intro t ht hws hwd hlat hlon
    constructor
    · simp [keepRow, ht]
    · simp [buildOp, coordOk, hlat, hlon, allWeatherNan, ht, hws, hwd,
        intRoundF, nullIfNanF]

/-- A concrete land record with only temperature defined, for C2. -/
def c2rec : TransCell :=
  ⟨0, FVal.num 19, FVal.num (-99), FVal.num 26.85, FVal.nan, FVal.nan⟩

/-- C2 witness: a concrete record with only temperature defined is kept by
the flattener filter and its wind fields become null in the update set. -/
theorem C2_flattener_drop_iff_witness :
    keepRow c2rec = true ∧
    (buildOp c2rec).map
        (fun op => (op.updateSet.temperature, op.updateSet.windSpeed,
          op.updateSet.windDirection)) =
      some (some (FVal.num 26.85), none, none) :=
  (C2_flattener_drop_iff [c2rec] c2rec).2 26.85 rfl rfl rfl rfl rfl

/-- C3: every operation produced by the Upsert Batch Builder filters on the
exact `(timestamp, latitude, longitude)` triple, is upsert-enabled, and its
update set carries the full field set with the unit tags, the rounded
integer wind direction, and nulls kept explicitly. -/
theorem C3_upsert_op_fields (r : TransCell) (op : UpsertOp)
    (h : buildOp r = some op) :
    op.opFilter.timestamp = r.time ∧ op.opFilter.latitude = r.latitude ∧
    op.opFilter.longitude = r.longitude ∧ op.upsert = true ∧
    op.updateSet.timestamp = r.time ∧ op.updateSet.latitude = r.latitude ∧
    op.updateSet.longitude = r.longitude ∧
    op.updateSet.temperature = nullIfNanF r.temperature_c ∧
    op.updateSet.temperatureUnit = "C" ∧
    op.updateSet.windSpeed = nullIfNanF r.wind_speed_mps ∧
    op.updateSet.windSpeedUnit = "m/s" ∧
    intRoundF r.wind_direction_deg = some op.updateSet.windDirection ∧
    op.updateSet.windDirectionUnit = "degrees" := by
  unfold buildOp at h
  split at h
  · simp at h
  · split at h
    · simp at h
    · rcases hm : intRoundF r.wind_direction_deg with _ | wdi
      · rw [hm] at h
        simp at h
      · rw [hm] at h
        simp only [Option.some.injEq] at h
        subst h
        exact ⟨rfl, rfl, rfl, rfl, rfl, rfl, rfl, rfl, rfl, rfl, rfl, rfl, rfl⟩

/-- A concrete fully-defined record for the C3 witness. -/
def c3rec : TransCell :=
  ⟨5, FVal.num 20, FVal.num (-100), FVal.num 25, FVal.num 3, FVal.num 90⟩

/-- The operation the builder produces for `c3rec`. -/
noncomputable def c3op : UpsertOp :=
  ⟨⟨5, FVal.num 20, FVal.num (-100)⟩,
    ⟨5, FVal.num 20, FVal.num (-100), some (FVal.num 25), "C",
      some (FVal.num 3), "m/s", some (pyRound 90), "degrees"⟩, true⟩

/-- C3 witness: the theorem evaluated on a concrete record and its
operation. -/
theorem C3_upsert_op_fields_witness :
    c3op.opFilter.timestamp = c3rec.time ∧ c3op.opFilter.latitude = c3rec.latitude ∧
    c3op.opFilter.longitude = c3rec.longitude ∧ c3op.upsert = true ∧
    c3op.updateSet.timestamp = c3rec.time ∧ c3op.updateSet.latitude = c3rec.latitude ∧
    c3op.updateSet.longitude = c3rec.longitude ∧
    c3op.updateSet.temperature = nullIfNanF c3rec.temperature_c ∧
    c3op.updateSet.temperatureUnit = "C" ∧
    c3op.updateSet.windSpeed = nullIfNanF c3rec.wind_speed_mps ∧
    c3op.updateSet.windSpeedUnit = "m/s" ∧
    intRoundF c3rec.wind_direction_deg = some c3op.updateSet.windDirection ∧
    c3op.updateSet.windDirectionUnit = "degrees" :=
  C3_upsert_op_fields c3rec c3op rfl

/-- A record whose latitude is `+inf` (and everything else well-formed). -/
def c5infRec : TransCell :=
  ⟨0, FVal.posInf, FVal.num 14, FVal.num 10, FVal.num 2, FVal.num 90⟩

/-- C5 counterexample: the claim says no operation is produced for a record
whose latitude or longitude is NaN or infinite, but the check at line 336
is only `not np.isnan(val)`, so an operation IS produced for an infinite
latitude. -/
theorem C5_coordinate_validation_counterexample :
    c5infRec.latitude = FVal.posInf ∧ (buildOp c5infRec).isSome = true :=
  ⟨rfl, rfl⟩

/-- C5 amended: the builder validates that latitude and longitude are
defined non-NaN numbers; a record with a NaN coordinate is dropped without
aborting the rest of the batch, but infinities pass the validation. -/
theorem C5_coordinate_validation_amended (r : TransCell) (rest : List TransCell)
    (h : r.latitude.isnan = true ∨ r.longitude.isnan = true) :
    buildOp r = none ∧
    prepare_bulk_operations (r :: rest) = prepare_bulk_operations rest ∧
    coordOk FVal.posInf = true ∧ coordOk FVal.negInf = true := by
  have hb : buildOp r = none := by
    rcases h with h | h
    · simp [buildOp, coordOk, h]
    · simp [buildOp, coordOk, h]
  exact ⟨hb, by simp [prepare_bulk_operations, List.filterMap_cons, hb], rfl, rfl⟩

/-- A record whose latitude is NaN, for the C5 witness. -/
def c5nanRec : TransCell :=
  ⟨0, FVal.nan, FVal.num 1, FVal.num 2, FVal.num 3, FVal.num 4⟩

/-- C5 witness: the amended theorem evaluated on a concrete NaN-latitude
record. -/
theorem C5_coordinate_validation_amended_witness :
    buildOp c5nanRec = none ∧
    prepare_bulk_operations [c5nanRec] = prepare_bulk_operations [] ∧
    coordOk FVal.posInf = true ∧ coordOk FVal.negInf = true :=
  C5_coordinate_validation_amended c5nanRec [] (Or.inl rfl)

/-- A well-formed sample operation for the Store Writer claims. -/
def c4op : UpsertOp :=
  ⟨⟨0, FVal.num 20, FVal.num (-100)⟩,
    ⟨0, FVal.num 20, FVal.num (-100), some (FVal.num 10), "C",
      some (FVal.num 2), "m/s", some 90, "degrees"⟩, true⟩

/-- C4 counterexample: the claim says total failure of the write call is
the one case that propagates as a hard error to the caller, but the bare
`except Exception` at line 411 catches it too and the function returns
normally after logging — nothing propagates. -/
theorem C4_store_writer_counterexample :
    load_data_to_mongo [c4op] (BulkOutcome.otherException "connection reset") =
      Except.ok [LogLine.errorUnexpected "connection reset"] := rfl

/-- C4 amended: the writer runs the batch unordered (every operation of the
batch is attempted even when some fail), a `BulkWriteError` is captured and
logged without aborting — its error count plus per-operation index, code
and message for the first five errors — and a total failure of the write
call is also caught and logged: no outcome propagates to the caller. -/
theorem C4_store_writer_amended (operations : List UpsertOp)
    (outcome : BulkOutcome) (opFails : List Bool) :
    (load_data_to_mongo operations outcome).isOk = true ∧
    attemptedOpsCount BULK_WRITE_ORDERED opFails = opFails.length ∧
    (∀ errs, outcome = BulkOutcome.bulkWriteError errs →
      operations.isEmpty = false →
      load_data_to_mongo operations outcome =
        Except.ok (LogLine.errorBulkCount errs.length ::
          (errs.take 5).map (fun e => LogLine.debugOpError e.index e.code e.errmsg))) := by
  refine ⟨?_, rfl, ?_⟩
  · unfold load_data_to_mongo
    split
    · rfl
    · cases outcome <;> rfl
  · intro errs ho hne
    subst ho
    simp [load_data_to_mongo, hne]

/-- A sample per-operation bulk-write error. -/
def c4err : WriteErrDetail := ⟨3, 11000, "duplicate key"⟩

/-- C4 witness: the amended theorem evaluated on a one-operation batch
whose bulk write reports one per-operation error. -/
theorem C4_store_writer_amended_witness :
    load_data_to_mongo [c4op] (BulkOutcome.bulkWriteError [c4err]) =
      Except.ok [LogLine.errorBulkCount 1, LogLine.debugOpError 3 11000 "duplicate key"] :=
  (C4_store_writer_amended [c4op] (BulkOutcome.bulkWriteError [c4err]) []).2.2
    [c4err] rfl rfl

/-- A header that starts with the 3 bytes `CDF` followed by a byte that is
neither `\x01` nor `\x02`, so it matches NO 4-byte classic marker. -/
def c8badFile : List ℕ := [0x43, 0x44, 0x46, 0x00, 0x00, 0x00, 0x00, 0x00]

/-- C8 counterexample: the header check accepts a file whose leading bytes
match neither of the two signatures the claim names, because line 81 only
tests the 3-byte prefix `CDF`, not a 4-byte classic marker. -/
theorem C8_signature_counterexample :
    is_probably_netcdf c8badFile = true ∧
    claimedSignatureMatch c8badFile = false := by
  exact ⟨rfl, rfl⟩

/-- C8 amended: the check accepts a file iff its leading bytes start with
the 3-byte marker `CDF` or its leading 8 bytes equal the HDF5 signature;
a file whose header matches neither is skipped before any backend open is
attempted. -/
theorem C8_signature_amended (file : List ℕ) (fileExists : Bool)
    (size_bytes : ℕ) (anyEngineOpens : Bool) :
    (is_probably_netcdf file = true ↔
      ((file.take 8).take 3 = CDF_MAGIC ∨ file.take 8 = HDF5_SIG)) ∧
    (is_probably_netcdf file = false →
      fileValidation fileExists size_bytes file anyEngineOpens ≠
        FileDecision.processed ∧
      fileValidation fileExists size_bytes file anyEngineOpens ≠
        FileDecision.skippedUnreadable) := by
  constructor
  · simp [is_probably_netcdf]
  · intro hbad
    constructor <;>
      · simp only [fileValidation, hbad, Bool.not_false, if_true]
        split
        · simp
        · split
          · simp
          · simp

/-- An 8-byte all-zero header, matching neither signature. -/
def c8zeros : List ℕ := List.replicate 8 0

/-- C8 witness: the amended theorem evaluated on an all-zero header of a
plausible-sized, existing file with a working backend. -/
theorem C8_signature_amended_witness :
    fileValidation true 20000 c8zeros true ≠ FileDecision.processed ∧
    fileValidation true 20000 c8zeros true ≠ FileDecision.skippedUnreadable :=
  (C8_signature_amended c8zeros true 20000 true).2 rfl

/-- Closed form of the slice loop: the `j`-th slice, when it exists, is
`[TIME_CHUNK_SIZE * j, min (TIME_CHUNK_SIZE * j + TIME_CHUNK_SIZE) total)`. -/
lemma sliceBounds_getElem (t j : ℕ) :
    (sliceBounds t)[j]? =
      if TIME_CHUNK_SIZE * j < t then
        some (TIME_CHUNK_SIZE * j, min (TIME_CHUNK_SIZE * j + TIME_CHUNK_SIZE) t)
      else none := by
  rw [sliceBounds, List.getElem?_map]
  by_cases hj : j < (t + TIME_CHUNK_SIZE - 1) / TIME_CHUNK_SIZE
  · rw [List.getElem?_range' 0 TIME_CHUNK_SIZE hj]
    have hcond : TIME_CHUNK_SIZE * j < t := by
      simp only [TIME_CHUNK_SIZE] at hj ⊢
      omega
    rw [if_pos hcond]
    simp
  · have hlen :
        (List.range' 0 ((t + TIME_CHUNK_SIZE - 1) / TIME_CHUNK_SIZE)
            TIME_CHUNK_SIZE).length ≤ j := by
      rw [List.length_range']
      omega
    rw [List.getElem?_eq_none hlen]
    have hcond : ¬ TIME_CHUNK_SIZE * j < t := by
      simp only [TIME_CHUNK_SIZE] at hj ⊢
      omega
    rw [if_neg hcond]
    rfl

/-- C9: the slice loop covers steps `0 .. total_steps - 1` with contiguous,
non-overlapping, ascending slices; every slice is nonempty and at most
`TIME_CHUNK_SIZE` long, and every slice that is not the last one is
exactly `TIME_CHUNK_SIZE` long. -/
theorem C9_slice_loop_invariants (total_steps : ℕ) :
    (∀ (j : ℕ) (p : ℕ × ℕ), (sliceBounds total_steps)[j]? = some p →
      p.1 = TIME_CHUNK_SIZE * j ∧
      p.2 = min (p.1 + TIME_CHUNK_SIZE) total_steps ∧
      p.1 < p.2 ∧ p.2 - p.1 ≤ TIME_CHUNK_SIZE) ∧
    (∀ (j : ℕ) (p q : ℕ × ℕ), (sliceBounds total_steps)[j]? = some p →
      (sliceBounds total_steps)[j + 1]? = some q →
      q.1 = p.2 ∧ p.2 - p.1 = TIME_CHUNK_SIZE) ∧
    (∀ (j k : ℕ) (p q : ℕ × ℕ), j < k → (sliceBounds total_steps)[j]? = some p →
      (sliceBounds total_steps)[k]? = some q → p.2 ≤ q.1) ∧
    (∀ s : ℕ, s < total_steps ↔
      ∃ p ∈ sliceBounds total_steps, p.1 ≤ s ∧ s < p.2) := by
  refine ⟨?_, ?_, ?_, ?_⟩
  · intro j p hp
    rw [sliceBounds_getElem] at hp
    split at hp
    · rename_i hc
      cases hp
      refine ⟨rfl, rfl, ?_, ?_⟩ <;> simp only [TIME_CHUNK_SIZE] at * <;> omega
    · exact absurd hp (by simp)
  · intro j p q hp hq
    rw [sliceBounds_getElem] at hp hq
    split at hp
    · rename_i hc1
      split at hq
      · rename_i hc2
        cases hp
        cases hq
        constructor <;> simp only [TIME_CHUNK_SIZE] at * <;> omega
      · exact absurd hq (by simp)
    · exact absurd hp (by simp)
  · intro j k p q hjk hp hq
    rw [sliceBounds_getElem] at hp hq
    split at hp
    · rename_i hc1
      split at hq
      · rename_i hc2
        cases hp
        cases hq
        simp only [TIME_CHUNK_SIZE] at *
        have : 168 * (j + 1) ≤ 168 * k := by omega
        omega
      · exact absurd hq (by simp)
    · exact absurd hp (by simp)
  · intro s
    constructor
    · intro hs
      have hdiv : TIME_CHUNK_SIZE * (s / TIME_CHUNK_SIZE) < total_steps := by
        simp only [TIME_CHUNK_SIZE] at *
        omega
      have hsome := sliceBounds_getElem total_steps (s / TIME_CHUNK_SIZE)
      rw [if_pos hdiv] at hsome
      refine ⟨_, List.mem_iff_getElem?.mpr ⟨s / TIME_CHUNK_SIZE, hsome⟩, ?_, ?_⟩ <;>
        simp only [TIME_CHUNK_SIZE] at * <;> omega
    · rintro ⟨p, hmem, h1, h2⟩
      obtain ⟨j, hj⟩ := List.mem_iff_getElem?.mp hmem
      rw [sliceBounds_getElem] at hj
      split at hj
      · rename_i hc
        cases hj
        simp only [TIME_CHUNK_SIZE] at *
        omega
      · exact absurd hj (by simp)

/-- C9 witness: the invariants evaluated on a file of 200 time steps, whose
slices are `[0, 168)` and `[168, 200)`. -/
theorem C9_slice_loop_invariants_witness :
    ((168 : ℕ), (200 : ℕ)).1 = ((0 : ℕ), (168 : ℕ)).2 ∧
    ((0 : ℕ), (168 : ℕ)).2 - ((0 : ℕ), (168 : ℕ)).1 = TIME_CHUNK_SIZE :=
  (C9_slice_loop_invariants 200).2.1 0 (0, 168) (168, 200) rfl rfl

/-- Evaluation of the wind-direction formula at `u = -0.01, v = 1`:
the direction is `180 - degrees(arctan 0.01)`, a value just below 180. -/
lemma windDir_at_claim_example :
    windDirOfReal (-0.01) 1 = 180 - Real.arctan 0.01 * (180 / Real.pi) := by
  have ha : atan2 (-0.01) 1 = -Real.arctan 0.01 := by
    rw [atan2, if_pos (by norm_num : (0 : ℝ) < 1)]
    rw [show ((-0.01 : ℝ) / 1) = -(0.01 : ℝ) by norm_num, Real.arctan_neg]
  have hpos := arctan_deg_pos (by norm_num : (0 : ℝ) < 0.01)
  have hlt := arctan_deg_lt (by norm_num : (0 : ℝ) < 0.01)
  rw [windDirOfReal, ha, degrees]
  rw [show -Real.arctan 0.01 * (180 / Real.pi) + 180 =
    180 - Real.arctan 0.01 * (180 / Real.pi) by ring]
  exact fmod_eq_self (by nlinarith) (by nlinarith)

/-- C10 counterexample: at the input `(u, v) = (-0.01, 1)` named by the
claim, the derived wind direction is below 180 degrees, not strictly
between 359.5 and 360. -/
theorem C10_rounding_counterexample : windDirOfReal (-0.01) 1 < 359.5 := by
  rw [windDir_at_claim_example]
  have hpos := arctan_deg_pos (by norm_num : (0 : ℝ) < 0.01)
  linarith

/-- Evaluation of the wind-direction formula at `u = 0.001, v = -1`:
the direction is `360 - degrees(arctan 0.001)`, a value just below 360. -/
lemma windDir_near_north :
    windDirOfReal 0.001 (-1) = 360 - Real.arctan 0.001 * (180 / Real.pi) := by
  have ha : atan2 0.001 (-1) = Real.pi - Real.arctan 0.001 := by
    rw [atan2, if_neg (by norm_num : ¬ (0 : ℝ) < -1),
      if_pos (by norm_num : (-1 : ℝ) < 0), if_pos (by norm_num : (0 : ℝ) ≤ 0.001)]
    rw [show ((0.001 : ℝ) / (-1)) = -(0.001 : ℝ) by norm_num, Real.arctan_neg]
    ring
  have hpos := arctan_deg_pos (by norm_num : (0 : ℝ) < 0.001)
  have hlt := arctan_deg_lt (by norm_num : (0 : ℝ) < 0.001)
  rw [windDirOfReal, ha, degrees]
  have hd : (Real.pi - Real.arctan 0.001) * (180 / Real.pi) =
      180 - Real.arctan 0.001 * (180 / Real.pi) := by
    field_simp
    ring
  rw [hd]
  rw [show (180 : ℝ) - Real.arctan 0.001 * (180 / Real.pi) + 180 =
    360 - Real.arctan 0.001 * (180 / Real.pi) by ring]
  exact fmod_eq_self (by nlinarith) (by nlinarith)

/-- C10 amended: some finite `(u, v)` — for example `(0.001, -1)` — has a
derived wind direction strictly between 359.5 and 360, and its stored
`windDirection` is the rounded integer 360; the float direction always
stays in `[0, 360)` while the stored integer ranges over `[0, 360]`. -/
theorem C10_rounding_amended :
    (359.5 < windDirOfReal 0.001 (-1) ∧ windDirOfReal 0.001 (-1) < 360) ∧
    pyRound (windDirOfReal 0.001 (-1)) = 360 ∧
    (∀ u v : ℝ, 0 ≤ windDirOfReal u v ∧ windDirOfReal u v < 360) ∧
    (∀ u v : ℝ, 0 ≤ pyRound (windDirOfReal u v) ∧
      pyRound (windDirOfReal u v) ≤ 360) := by
  have hpos := arctan_deg_pos (by norm_num : (0 : ℝ) < 0.001)
  have hlt := arctan_deg_lt (by norm_num : (0 : ℝ) < 0.001)
  have hval := windDir_near_north
  refine ⟨⟨?_, ?_⟩, ?_, ?_, ?_⟩
  · rw [hval]; nlinarith
  · rw [hval]; nlinarith
  · rw [hval]
    have hfl : ⌊(360 : ℝ) - Real.arctan 0.001 * (180 / Real.pi)⌋ = 359 := by
      rw [Int.floor_eq_iff]
      push_cast
      constructor <;> nlinarith
    have hfr : Int.fract ((360 : ℝ) - Real.arctan 0.001 * (180 / Real.pi)) ≠ 1 / 2 := by
      rw [Int.fract, hfl]
      push_cast
      intro hh
      nlinarith
    rw [pyRound, if_neg hfr, round_eq, Int.floor_eq_iff]
    push_cast
    constructor <;> nlinarith
  · exact fun u v => windDir_bounds u v
  · intro u v
    exact pyRound_bounds (windDir_bounds u v).1 (windDir_bounds u v).2
